import Mathlib

/-!
Shallow embedding of the quorum-voting engine in
`src/GUGUbot/gugubot/utils/vote_manager.py`.

Python `float` quantities (threshold, timestamps, timeout durations) are
modelled as exact rationals; Python `Set[str]` as `Finset String`; Python's
insertion-ordered `dict` as an association list that appends fresh keys at
the end. Wall-clock reads (`time.time()`) become an explicit `now : ℚ`
argument threaded to the operations that read the clock.
-/

namespace VoteEngine

/-- Status enum `VoteStatus` from the source. -/
inductive VoteStatus where
  | pending
  | passed
  | rejected
  | cancelled
  | timeout
  | error
  deriving DecidableEq, Repr

/-- Model of the `VoteTypeConfig` dataclass (callback omitted: not needed by any claim,
and `__post_init__` turning `None` keyword lists into `[]` is folded into
using plain lists). -/
structure VoteTypeConfig where
  vote_type : String
  name_key : String
  description_key : String
  required_percentage : ℚ := 1
  timeout : ℚ := 300
  start_keywords : List String := []
  consult_keywords : List String := []
  deriving DecidableEq, Repr

/-- Model of the `Vote` instance state: constructor arguments plus the mutable fields
(`yes_votes`, `no_votes`, `status`, `start_time`). -/
structure Vote where
  vote_id : String
  vote_type : String
  initiator : String
  initiator_id : String
  eligible_voters : Finset String
  required_percentage : ℚ
  timeout : ℚ
  description : String
  index : ℕ
  yes_votes : Finset String
  no_votes : Finset String
  status : VoteStatus
  start_time : ℚ
  deriving DecidableEq

/-- Model of `Vote.__init__`: copies the eligibility snapshot, clamps the required
percentage to `[0, 1]`, starts with empty vote sets, `PENDING` status and
`start_time = time.time()` (the explicit `now`). -/
def Vote.create (vote_id vote_type initiator initiator_id : String)
    (eligible_voters : Finset String) (required_percentage : ℚ)
    (timeout : ℚ) (description : String) (index : ℕ) (now : ℚ) : Vote :=
  { vote_id := vote_id
    vote_type := vote_type
    initiator := initiator
    initiator_id := initiator_id
    eligible_voters := eligible_voters
    required_percentage := max 0 (min 1 required_percentage)
    timeout := timeout
    description := description
    index := index
    yes_votes := ∅
    no_votes := ∅
    status := VoteStatus.pending
    start_time := now }

/-- Model of `Vote.cast_vote`: returns the updated vote together with
`(success, is_new_vote)`. -/
def Vote.cast_vote (v : Vote) (voter_id : String) (vote_yes : Bool) :
    Vote × Bool × Bool :=
  if v.status ≠ VoteStatus.pending then (v, false, false)
  else if voter_id ∉ v.eligible_voters then (v, false, false)
  else
    let is_new_vote := decide (voter_id ∉ v.yes_votes ∧ voter_id ∉ v.no_votes)
    let yes' := v.yes_votes.erase voter_id
    let no' := v.no_votes.erase voter_id
    if vote_yes then
      ({ v with yes_votes := insert voter_id yes', no_votes := no' },
        true, is_new_vote)
    else
      ({ v with yes_votes := yes', no_votes := insert voter_id no' },
        true, is_new_vote)

/-- Model of `Vote.withdraw_vote`: returns the updated vote together with the
success flag. -/
def Vote.withdraw_vote (v : Vote) (voter_id : String) : Vote × Bool :=
  if v.status ≠ VoteStatus.pending then (v, false)
  else if voter_id ∉ v.eligible_voters then (v, false)
  else if voter_id ∉ v.yes_votes ∧ voter_id ∉ v.no_votes then (v, false)
  else
    ({ v with yes_votes := v.yes_votes.erase voter_id
              no_votes := v.no_votes.erase voter_id }, true)

/-- Model of `Vote.check_result` at clock reading `now`: returns the updated vote
together with `Optional[VoteStatus]`. Arithmetic is over ℚ exactly as the
source computes with Python ints/floats. -/
def Vote.check_result (v : Vote) (now : ℚ) : Vote × Option VoteStatus :=
  if v.status ≠ VoteStatus.pending then (v, some v.status)
  else
    let total_voters : ℕ := v.eligible_voters.card
    if total_voters = 0 then (v, none)
    else
      let yes_count : ℕ := v.yes_votes.card
      let no_count : ℕ := v.no_votes.card
      let voted_count : ℕ := yes_count + no_count
      let current_percentage : ℚ := (yes_count : ℚ) / (total_voters : ℚ)
      if v.required_percentage ≤ current_percentage then
        ({ v with status := VoteStatus.passed }, some VoteStatus.passed)
      else
        let remaining : ℚ := (total_voters : ℚ) - (voted_count : ℚ)
        let max_possible : ℚ := ((yes_count : ℚ) + remaining) / (total_voters : ℚ)
        if max_possible < v.required_percentage then
          ({ v with status := VoteStatus.rejected }, some VoteStatus.rejected)
        else if v.timeout < now - v.start_time then
          ({ v with status := VoteStatus.timeout }, some VoteStatus.timeout)
        else (v, none)

/-- Model of `Vote.cancel`. -/
def Vote.cancel (v : Vote) : Vote × Bool :=
  if v.status ≠ VoteStatus.pending then (v, false)
  else ({ v with status := VoteStatus.cancelled }, true)

/-- Update an association list at a key, Python-dict style: overwrite in
place if the key is present, otherwise append at the end (insertion
order preserved). -/
def dictSet {α : Type} (l : List (String × α)) (k : String) (a : α) :
    List (String × α) :=
  match l with
  | [] => [(k, a)]
  | (k', a') :: rest =>
      if k' = k then (k, a) :: rest else (k', a') :: dictSet rest k a

/-- Model of the `VoteTypeRegistry` state: `_registry` and `_keyword_map`, both
insertion-ordered dicts. -/
structure VoteTypeRegistry where
  registry : List (String × VoteTypeConfig)
  keyword_map : List (String × String)
  deriving DecidableEq

/-- Model of `VoteTypeRegistry.__init__`. -/
def VoteTypeRegistry.empty : VoteTypeRegistry :=
  { registry := [], keyword_map := [] }

/-- Model of `VoteTypeRegistry.register`: fails without mutating if the kind is
already present, otherwise stores the config and maps every start and
consult keyword to the kind. -/
def VoteTypeRegistry.register (r : VoteTypeRegistry) (config : VoteTypeConfig) :
    VoteTypeRegistry × Bool :=
  if (r.registry.map Prod.fst).contains config.vote_type then (r, false)
  else
    let reg' := dictSet r.registry config.vote_type config
    let km1 := config.start_keywords.foldl
      (fun km keyword => dictSet km keyword config.vote_type) r.keyword_map
    let km2 := config.consult_keywords.foldl
      (fun km keyword => dictSet km keyword config.vote_type) km1
    ({ registry := reg', keyword_map := km2 }, true)

/-- Model of `VoteTypeRegistry.get_config`: dict lookup. -/
def VoteTypeRegistry.get_config (r : VoteTypeRegistry) (vote_type : String) :
    Option VoteTypeConfig :=
  (r.registry.find? (fun p => p.1 = vote_type)).map Prod.snd

/-- Keyword lookup in `_keyword_map` (the first half of
`VoteTypeRegistry.get_by_keyword`). -/
def VoteTypeRegistry.keyword_lookup (r : VoteTypeRegistry) (keyword : String) :
    Option String :=
  (r.keyword_map.find? (fun p => p.1 = keyword)).map Prod.snd

/-- Model of the `VoteManager` state: the `active_votes` dict (insertion-ordered) and
the `_vote_counter`. The logger is I/O only and is dropped. -/
structure VoteManager where
  active_votes : List (String × Vote)
  vote_counter : ℕ
  deriving DecidableEq

/-- Model of `VoteManager.__init__`. -/
def VoteManager.empty : VoteManager :=
  { active_votes := [], vote_counter := 0 }

/-- Model of `VoteManager.get_all_pending_votes`: the pending votes in dict
(insertion) order. -/
def VoteManager.get_all_pending_votes (m : VoteManager) : List Vote :=
  (m.active_votes.filter (fun p => p.2.status = VoteStatus.pending)).map Prod.snd

/-- Model of `VoteManager.create_vote` at clock reading `now`: refuses (returns
`none`) when a pending vote of the same type exists; otherwise bumps the
counter, builds the id string `type_counter_inttime`, assigns
`index = pending_count + 1` and stores the new vote. -/
def VoteManager.create_vote (m : VoteManager)
    (vote_type initiator initiator_id : String)
    (eligible_voters : Finset String) (required_percentage : ℚ)
    (timeout : ℚ) (description : String) (now : ℚ) :
    VoteManager × Option Vote :=
  if m.active_votes.any
      (fun p => p.2.vote_type = vote_type ∧ p.2.status = VoteStatus.pending)
  then (m, none)
  else
    let counter := m.vote_counter + 1
    let vote_id := vote_type ++ "_" ++ toString counter ++ "_" ++ toString ⌊now⌋
    let pending_count := m.get_all_pending_votes.length
    let index := pending_count + 1
    let vote := Vote.create vote_id vote_type initiator initiator_id
      eligible_voters required_percentage timeout description index now
    ({ active_votes := dictSet m.active_votes vote_id vote
       vote_counter := counter }, some vote)

/-- Model of `VoteManager.get_vote`: dict lookup by id. -/
def VoteManager.get_vote (m : VoteManager) (vote_id : String) : Option Vote :=
  (m.active_votes.find? (fun p => p.1 = vote_id)).map Prod.snd

/-- Model of `VoteManager.get_vote_by_index`: first pending vote carrying the
index, in dict order. -/
def VoteManager.get_vote_by_index (m : VoteManager) (index : ℕ) : Option Vote :=
  ((m.active_votes.find?
      (fun p => p.2.status = VoteStatus.pending ∧ p.2.index = index)).map
    Prod.snd)

/-- Model of `VoteManager.get_pending_vote_by_type`. -/
def VoteManager.get_pending_vote_by_type (m : VoteManager) (vote_type : String) :
    Option Vote :=
  ((m.active_votes.find?
      (fun p => p.2.vote_type = vote_type ∧ p.2.status = VoteStatus.pending)).map
    Prod.snd)

/-- Model of `VoteManager.cast_vote`: delegates to the vote stored under the id,
writing the mutated vote back in place. -/
def VoteManager.cast_vote (m : VoteManager) (vote_id voter_id : String)
    (vote_yes : Bool) : VoteManager × Bool × Bool :=
  match m.get_vote vote_id with
  | none => (m, false, false)
  | some vote =>
      let r := vote.cast_vote voter_id vote_yes
      ({ m with active_votes := dictSet m.active_votes vote_id r.1 },
        r.2.1, r.2.2)

/-- Model of `VoteManager.delete_vote`: cancels the vote stored under the id. -/
def VoteManager.delete_vote (m : VoteManager) (vote_id : String) :
    VoteManager × Bool :=
  match m.get_vote vote_id with
  | none => (m, false)
  | some vote =>
      let r := vote.cancel
      ({ m with active_votes := dictSet m.active_votes vote_id r.1 }, r.2)

/-- Model of `VoteManager.check_and_finalize_vote` at clock reading `now`. -/
def VoteManager.check_and_finalize_vote (m : VoteManager) (vote_id : String)
    (now : ℚ) : VoteManager × Option VoteStatus :=
  match m.get_vote vote_id with
  | none => (m, none)
  | some vote =>
      let r := vote.check_result now
      ({ m with active_votes := dictSet m.active_votes vote_id r.1 }, r.2)

/-- Model of `VoteManager.cleanup_finished_votes` at clock reading `now`: clamps a
negative retention to 0, then drops every non-pending vote whose
`start_time` lies strictly before `now - minutes * 60`, returning how
many were dropped. -/
def VoteManager.cleanup_finished_votes (m : VoteManager)
    (keep_recent_minutes : ℤ) (now : ℚ) : VoteManager × ℕ :=
  let minutes : ℤ := if keep_recent_minutes < 0 then 0 else keep_recent_minutes
  let cutoff_time : ℚ := now - (minutes : ℚ) * 60
  let to_remove := m.active_votes.filter
    (fun p => p.2.status ≠ VoteStatus.pending ∧ p.2.start_time < cutoff_time)
  ({ m with active_votes := (m.active_votes.filter
      (fun p => ¬(p.2.status ≠ VoteStatus.pending ∧
        p.2.start_time < cutoff_time))) },
    to_remove.length)

/-- A single ballot mutation, for stating invariants over arbitrary
sequences of `cast_vote` / `withdraw_vote` calls. -/
inductive VoteOp where
  | cast (voter_id : String) (vote_yes : Bool)
  | withdraw (voter_id : String)

/-- Apply one operation, keeping the resulting vote state. -/
def Vote.applyOp (v : Vote) (op : VoteOp) : Vote :=
  match op with
  | VoteOp.cast voter_id vote_yes => (v.cast_vote voter_id vote_yes).1
  | VoteOp.withdraw voter_id => (v.withdraw_vote voter_id).1

/-- Apply a sequence of operations left to right. -/
def Vote.applyOps (v : Vote) (ops : List VoteOp) : Vote :=
  ops.foldl Vote.applyOp v

/-- Concrete run used to analyse display indices: a singleton voter set. -/
def sC1 : Finset String := {"v"}

/-- Create a vote of kind `a` in an empty manager (index 1, id `a_1_0`). -/
def mC1a : VoteManager := (VoteManager.empty.create_vote "a" "i" "j" sC1 1 300 "" 0).1

/-- Then create a vote of kind `b` (index 2). -/
def mC1b : VoteManager := (mC1a.create_vote "b" "i" "j" sC1 1 300 "" 0).1

/-- Then cancel the kind-`a` vote, leaving only index 2 pending. -/
def mC1c : VoteManager := (mC1b.delete_vote "a_1_0").1

/-- Then create a vote of kind `c`: it also receives index 2. -/
def mC1d : VoteManager := (mC1c.create_vote "c" "i" "j" sC1 1 300 "" 0).1

/-- A concrete already-resolved vote, used to exercise the terminal-state
branches of the operations. -/
def vTerm : Vote :=
  { Vote.create "x_1_0" "x" "i" "j" {"A", "B"} 1 300 "" 1 0 with
    status := VoteStatus.cancelled }

/-- A concrete pending vote over voters `A`, `B` with threshold 1. -/
def vPend : Vote := Vote.create "x_1_0" "x" "i" "j" {"A", "B"} 1 300 "" 1 0

/-- A manager holding one cancelled vote and one pending vote, both with
`start_time = 0`. -/
def mC7 : VoteManager :=
  { active_votes := [("t_1_0", vTerm), ("x_1_0", vPend)], vote_counter := 2 }

/-- A registered vote-kind config. -/
def cfgA : VoteTypeConfig :=
  { vote_type := "shutdown", name_key := "n", description_key := "d" }

/-- A registry already holding `cfgA`. -/
def regA : VoteTypeRegistry := (VoteTypeRegistry.empty.register cfgA).1

/-- A second config for the same kind, carrying a new keyword. -/
def cfgB : VoteTypeConfig :=
  { vote_type := "shutdown", name_key := "n2", description_key := "d2"
    start_keywords := ["kill"] }

/-- C3: once a vote's status is terminal (not Pending), `cast_vote`,
`withdraw_vote`, `cancel` and `check_result` all leave the vote — in
particular its status — unchanged; `check_result` returns the stored
terminal status, and a second `check_result` call returns the same
status again. -/
theorem terminal_status_frozen (v : Vote) (voter_id : String)
    (vote_yes : Bool) (now now2 : ℚ) (h : v.status ≠ VoteStatus.pending) :
    v.cast_vote voter_id vote_yes = (v, false, false) ∧
    v.withdraw_vote voter_id = (v, false) ∧
    v.cancel = (v, false) ∧
    v.check_result now = (v, some v.status) ∧
    (v.check_result now).1.check_result now2 = (v, some v.status) := by
  refine ⟨?_, ?_, ?_, ?_, ?_⟩ <;>
    simp [Vote.cast_vote, Vote.withdraw_vote, Vote.cancel, Vote.check_result, h]

/-- C3 witness: the frozen-status fact evaluated on a concrete cancelled
vote. -/
theorem terminal_status_frozen_witness :
    vTerm.cast_vote "A" true = (vTerm, false, false) ∧
    vTerm.withdraw_vote "A" = (vTerm, false) ∧
    vTerm.cancel = (vTerm, false) ∧
    vTerm.check_result 1000 = (vTerm, some vTerm.status) ∧
    (vTerm.check_result 1000).1.check_result 2000 = (vTerm, some vTerm.status) :=
  terminal_status_frozen vTerm "A" true 1000 2000 (by decide)

/-- C10: whenever `cast_vote` reports `accepted = false` or
`withdraw_vote` reports `false`, the vote — approve set, reject set and
status — is exactly as before the call. -/
theorem failed_mutations_atomic (v : Vote) (voter_id : String)
    (vote_yes : Bool) :
    ((v.cast_vote voter_id vote_yes).2.1 = false →
      (v.cast_vote voter_id vote_yes).1 = v) ∧
    ((v.withdraw_vote voter_id).2 = false →
      (v.withdraw_vote voter_id).1 = v) := by
  constructor
  · intro hfail
    unfold Vote.cast_vote at hfail ⊢
    split at hfail
    · simp_all
    · split at hfail
      · simp_all
      · split at hfail <;> simp_all
  · intro hfail
    unfold Vote.withdraw_vote at hfail ⊢
    split at hfail
    · simp_all
    · split at hfail
      · simp_all
      · split at hfail <;> simp_all

/-- C10 witness: a cast and a withdraw that fail (terminal vote) leave a
concrete vote untouched. -/
theorem failed_mutations_atomic_witness :
    (vTerm.cast_vote "A" true).1 = vTerm ∧
    (vTerm.withdraw_vote "A").1 = vTerm :=
  ⟨(failed_mutations_atomic vTerm "A" true).1 (by decide),
   (failed_mutations_atomic vTerm "A" true).2 (by decide)⟩

/-- C9: a pending vote with an empty eligibility set is left pending by
`check_result` with no decision, no matter the clock reading (the
empty-eligibility early return precedes the timeout branch), and —
staying pending — it is never removed by
`cleanup_finished_votes`. -/
theorem empty_eligibility_stays_pending (v : Vote) (now : ℚ)
    (hp : v.status = VoteStatus.pending) (he : v.eligible_voters = ∅) :
    v.check_result now = (v, none) ∧
    (∀ (m : VoteManager) (vote_id : String) (k : ℤ) (now2 : ℚ),
      (vote_id, v) ∈ m.active_votes →
        (vote_id, v) ∈ (m.cleanup_finished_votes k now2).1.active_votes) := by
  constructor
  · simp [Vote.check_result, hp, he]
  · intro m vote_id k now2 hmem
    simp only [VoteManager.cleanup_finished_votes, List.mem_filter]
    exact ⟨hmem, by simp [hp]⟩

/-- C9 witness: a pending vote with empty eligibility, evaluated far past
its deadline and through a zero-retention cleanup. -/
theorem empty_eligibility_stays_pending_witness :
    (Vote.create "e_1_0" "e" "i" "j" ∅ 1 1 "" 1 0).check_result 1000000 =
      (Vote.create "e_1_0" "e" "i" "j" ∅ 1 1 "" 1 0, none) ∧
    ("e_1_0", Vote.create "e_1_0" "e" "i" "j" ∅ 1 1 "" 1 0) ∈
      (VoteManager.cleanup_finished_votes
        { active_votes := [("e_1_0", Vote.create "e_1_0" "e" "i" "j" ∅ 1 1 "" 1 0)]
          vote_counter := 1 } 0 1000000).1.active_votes := by
  refine ⟨(empty_eligibility_stays_pending _ 1000000 (by decide) (by decide)).1, ?_⟩
  exact (empty_eligibility_stays_pending
    (Vote.create "e_1_0" "e" "i" "j" ∅ 1 1 "" 1 0) 1000000 (by decide)
    (by decide)).2 _ "e_1_0" 0 1000000 (by simp)

/-- Lemma: `cast_vote` keeps the yes/no tallies disjoint. -/
theorem cast_vote_disjoint (v : Vote) (voter_id : String) (vote_yes : Bool)
    (h : Disjoint v.yes_votes v.no_votes) :
    Disjoint (v.cast_vote voter_id vote_yes).1.yes_votes
      (v.cast_vote voter_id vote_yes).1.no_votes := by
  have herase : Disjoint (v.yes_votes.erase voter_id) (v.no_votes.erase voter_id) :=
    h.mono (Finset.erase_subset _ _) (Finset.erase_subset _ _)
  simp only [Vote.cast_vote]
  split_ifs <;>
    first
      | exact h
      | exact Finset.disjoint_insert_left.mpr ⟨Finset.not_mem_erase _ _, herase⟩
      | exact Finset.disjoint_insert_right.mpr ⟨Finset.not_mem_erase _ _, herase⟩

/-- Lemma: `withdraw_vote` keeps the yes/no tallies disjoint. -/
theorem withdraw_vote_disjoint (v : Vote) (voter_id : String)
    (h : Disjoint v.yes_votes v.no_votes) :
    Disjoint (v.withdraw_vote voter_id).1.yes_votes
      (v.withdraw_vote voter_id).1.no_votes := by
  simp only [Vote.withdraw_vote]
  split_ifs <;>
    first
      | exact h
      | exact h.mono (Finset.erase_subset _ _) (Finset.erase_subset _ _)

/-- One `cast_vote` or `withdraw_vote` step keeps the yes/no tallies
disjoint. -/
theorem applyOp_disjoint (v : Vote) (op : VoteOp)
    (h : Disjoint v.yes_votes v.no_votes) :
    Disjoint (v.applyOp op).yes_votes (v.applyOp op).no_votes := by
  cases op with
  | cast voter_id vote_yes => exact cast_vote_disjoint v voter_id vote_yes h
  | withdraw voter_id => exact withdraw_vote_disjoint v voter_id h

/-- C5: starting from any vote whose approve and reject sets are
disjoint (as every freshly created vote is), any sequence of `cast_vote`
and `withdraw_vote` calls keeps them disjoint. -/
theorem approve_reject_disjoint (v : Vote) (ops : List VoteOp)
    (h : Disjoint v.yes_votes v.no_votes) :
    Disjoint (v.applyOps ops).yes_votes (v.applyOps ops).no_votes := by
  induction ops generalizing v with
  | nil => exact h
  | cons op rest ih => exact ih (v.applyOp op) (applyOp_disjoint v op h)

/-- C5 witness: a concrete pending vote run through casts and a
withdraw, with the final tallies checked disjoint. -/
theorem approve_reject_disjoint_witness :
    Disjoint vPend.yes_votes vPend.no_votes ∧
    Disjoint
      (vPend.applyOps
        [VoteOp.cast "A" true, VoteOp.cast "B" false,
         VoteOp.cast "A" false, VoteOp.withdraw "B"]).yes_votes
      (vPend.applyOps
        [VoteOp.cast "A" true, VoteOp.cast "B" false,
         VoteOp.cast "A" false, VoteOp.withdraw "B"]).no_votes :=
  ⟨by decide,
   approve_reject_disjoint vPend
     [VoteOp.cast "A" true, VoteOp.cast "B" false,
      VoteOp.cast "A" false, VoteOp.withdraw "B"] (by decide)⟩

/-- C6: for a pending vote and an eligible voter, casting the same
choice twice in a row is accepted both times, reports `is_new_vote =
false` the second time, and leaves the vote state (hence all tallies)
exactly as after the first cast. -/
theorem recast_same_choice_idempotent (v : Vote) (voter_id : String)
    (vote_yes : Bool) (hp : v.status = VoteStatus.pending)
    (he : voter_id ∈ v.eligible_voters) :
    ((v.cast_vote voter_id vote_yes).1.cast_vote voter_id vote_yes).2.1 = true ∧
    ((v.cast_vote voter_id vote_yes).1.cast_vote voter_id vote_yes).2.2 = false ∧
    ((v.cast_vote voter_id vote_yes).1.cast_vote voter_id vote_yes).1 =
      (v.cast_vote voter_id vote_yes).1 := by
  cases vote_yes <;>
    simp [Vote.cast_vote, hp, he, Finset.erase_insert_eq_erase,
      Finset.erase_idem, Finset.mem_insert, Finset.not_mem_erase]

/-- C6 witness: voter `A` casts approve twice on a concrete pending
vote. -/
theorem recast_same_choice_idempotent_witness :
    ((vPend.cast_vote "A" true).1.cast_vote "A" true).2.1 = true ∧
    ((vPend.cast_vote "A" true).1.cast_vote "A" true).2.2 = false ∧
    ((vPend.cast_vote "A" true).1.cast_vote "A" true).1 =
      (vPend.cast_vote "A" true).1 :=
  recast_same_choice_idempotent vPend "A" true (by decide) (by decide)

/-- C2: on a pending vote with a non-empty eligibility set of size `T`,
approve count `Y`, reject count `N0` and threshold `p`, `check_result`
passes iff `Y/T ≥ p`; otherwise rejects iff `(Y + (T - Y - N0))/T < p`
(strictly below, so an equal-to-threshold remaining possibility stays
pending); otherwise times out iff the elapsed time strictly exceeds the
timeout; otherwise it returns no decision and the vote stays pending —
in each case both the returned decision and the stored status. -/
theorem check_result_pending_spec (v : Vote) (now : ℚ)
    (hp : v.status = VoteStatus.pending) (hT : v.eligible_voters.card ≠ 0) :
    v.check_result now =
      (let T : ℚ := v.eligible_voters.card
       let Y : ℚ := v.yes_votes.card
       let N0 : ℚ := v.no_votes.card
       let p : ℚ := v.required_percentage
       if Y / T ≥ p then
         ({ v with status := VoteStatus.passed }, some VoteStatus.passed)
       else if (Y + (T - Y - N0)) / T < p then
         ({ v with status := VoteStatus.rejected }, some VoteStatus.rejected)
       else if now - v.start_time > v.timeout then
         ({ v with status := VoteStatus.timeout }, some VoteStatus.timeout)
       else (v, none)) := by
  simp only [Vote.check_result, hp, ne_eq, not_true_eq_false, if_false,
    hT, ite_false, ge_iff_le, gt_iff_lt, Nat.cast_add, sub_sub]

/-- C2 witness: the spec evaluated on a concrete pending vote (two
voters, threshold 1, no votes yet, well before the deadline): no
decision. -/
theorem check_result_pending_spec_witness :
    vPend.check_result 0 = (vPend, none) := by
  rw [check_result_pending_spec vPend 0 (by decide) (by decide)]
  norm_num [vPend, Vote.create]

/-- C7: with a non-negative retention, `cleanup_finished_votes` removes
exactly the stored votes whose status is terminal and whose age strictly
exceeds `retention * 60` seconds, never removes a pending vote, and
returns the number removed; with retention 0 every terminal vote created
strictly before `now` is removed. -/
theorem cleanup_removes_exactly_old_terminal (m : VoteManager)
    (keep_recent_minutes : ℤ) (now : ℚ) (hk : 0 ≤ keep_recent_minutes) :
    (∀ p ∈ m.active_votes,
        (p ∉ (m.cleanup_finished_votes keep_recent_minutes now).1.active_votes ↔
          p.2.status ≠ VoteStatus.pending ∧
            now - p.2.start_time > (keep_recent_minutes : ℚ) * 60)) ∧
    (∀ p ∈ m.active_votes, p.2.status = VoteStatus.pending →
        p ∈ (m.cleanup_finished_votes keep_recent_minutes now).1.active_votes) ∧
    (m.cleanup_finished_votes keep_recent_minutes now).2 +
        (m.cleanup_finished_votes keep_recent_minutes now).1.active_votes.length =
      m.active_votes.length ∧
    (∀ p ∈ m.active_votes, p.2.status ≠ VoteStatus.pending →
        p.2.start_time < now →
        p ∉ (m.cleanup_finished_votes 0 now).1.active_votes) := by
  have hclamp :
      (if keep_recent_minutes < 0 then 0 else keep_recent_minutes) =
        keep_recent_minutes := if_neg (not_lt.mpr hk)
  refine ⟨?_, ?_, ?_, ?_⟩
  · intro p hp
    simp only [VoteManager.cleanup_finished_votes, hclamp, List.mem_filter]
    simp [hp, lt_sub_comm, gt_iff_lt]
    intro _
    constructor <;> intro h1 <;> linarith
  · intro p hp hpend
    simp only [VoteManager.cleanup_finished_votes, hclamp, List.mem_filter]
    simp [hp, hpend]
  · simp only [VoteManager.cleanup_finished_votes, hclamp, decide_not]
    exact (List.length_eq_length_filter_add _).symm
  · intro p hp hterm hstart
    simp only [VoteManager.cleanup_finished_votes, List.mem_filter]
    simp [hp, hterm, hstart]

/-- C7 witness: a manager holding an old cancelled vote and an equally
old pending vote, swept with retention 0 far in the future: the
cancelled vote is removed, the pending one survives, and the returned
count accounts for the removal. -/
theorem cleanup_removes_exactly_old_terminal_witness :
    ("t_1_0", vTerm) ∉ (mC7.cleanup_finished_votes 0 10000).1.active_votes ∧
    ("x_1_0", vPend) ∈ (mC7.cleanup_finished_votes 0 10000).1.active_votes ∧
    (mC7.cleanup_finished_votes 0 10000).2 +
        (mC7.cleanup_finished_votes 0 10000).1.active_votes.length =
      mC7.active_votes.length :=
  ⟨((cleanup_removes_exactly_old_terminal mC7 0 10000 (by decide)).1
      ("t_1_0", vTerm) (by decide)).mpr ⟨by decide, by norm_num [vTerm, Vote.create]⟩,
   (cleanup_removes_exactly_old_terminal mC7 0 10000 (by decide)).2.1
      ("x_1_0", vPend) (by decide) (by decide),
   (cleanup_removes_exactly_old_terminal mC7 0 10000 (by decide)).2.2.1⟩

/-- C8: registering a config whose kind is already present returns
`false` and leaves the registry — kind map and keyword map — exactly
unchanged, so the previously registered config still resolves and none
of the new config's keywords are added or redirected. -/
theorem register_duplicate_kind_noop (r : VoteTypeRegistry)
    (c : VoteTypeConfig) (h : c.vote_type ∈ r.registry.map Prod.fst) :
    r.register c = (r, false) ∧
    (∀ k, (r.register c).1.get_config k = r.get_config k) ∧
    (∀ kw, (r.register c).1.keyword_lookup kw = r.keyword_lookup kw) := by
  have heq : r.register c = (r, false) := by
    simp [VoteTypeRegistry.register, h]
  exact ⟨heq, fun k => by rw [heq], fun kw => by rw [heq]⟩

/-- C8 witness: re-registering kind `shutdown` fails, the original
config still resolves, and the duplicate's keyword is not added. -/
theorem register_duplicate_kind_noop_witness :
    regA.register cfgB = (regA, false) ∧
    (regA.register cfgB).1.get_config "shutdown" = some cfgA ∧
    (regA.register cfgB).1.keyword_lookup "kill" = none := by
  have h := register_duplicate_kind_noop regA cfgB (by decide)
  exact ⟨h.1, (h.2.1 "shutdown").trans (by decide),
    (h.2.2 "kill").trans (by decide)⟩

/-- C1 counterexample: create kinds `a` (index 1) and `b` (index 2),
cancel the kind-`a` vote, then create kind `c`: the two pending votes
now both carry display index 2, so the pending indices are `[2, 2]` —
neither gap-free `{1, 2}` nor duplicate-free. -/
theorem pending_indices_not_dense_counterexample :
    (mC1b.delete_vote "a_1_0").2 = true ∧
    mC1d.get_all_pending_votes.length = 2 ∧
    mC1d.get_all_pending_votes.map Vote.index = [2, 2] ∧
    ¬ (mC1d.get_all_pending_votes.map Vote.index).Perm [1, 2] := by
  decide

/-- C1 amended: each created vote's index equals
`1 + (count of pending votes at creation time)`; after a resolution the
indices of the still-pending votes can have gaps and duplicates. -/
theorem create_vote_index_formula (m : VoteManager)
    (vote_type initiator initiator_id : String)
    (eligible_voters : Finset String) (required_percentage rtimeout : ℚ)
    (description : String) (now : ℚ) (v : Vote)
    (h : (m.create_vote vote_type initiator initiator_id eligible_voters
        required_percentage rtimeout description now).2 = some v) :
    v.index = m.get_all_pending_votes.length + 1 := by
  unfold VoteManager.create_vote at h
  split at h
  · exact absurd h (by simp)
  · simp only [Option.some.injEq] at h
    rw [← h]
    rfl

/-- C1 amended witness: the first vote created in an empty manager gets
index `0 + 1 = 1`. -/
theorem create_vote_index_formula_witness :
    (VoteManager.empty.create_vote "a" "i" "j" sC1 1 300 "" 0).2 =
      some (Vote.create "a_1_0" "a" "i" "j" sC1 1 300 "" 1 0) ∧
    (Vote.create "a_1_0" "a" "i" "j" sC1 1 300 "" 1 0).index =
      VoteManager.empty.get_all_pending_votes.length + 1 :=
  ⟨by decide,
   create_vote_index_formula VoteManager.empty "a" "i" "j" sC1 1 300 "" 0
     (Vote.create "a_1_0" "a" "i" "j" sC1 1 300 "" 1 0) (by decide)⟩

/-- C4 counterexample: in an empty manager (no pending vote of kind
`shutdown` exists), `create_vote` with an empty eligible-voter set still
returns a vote — and that vote's eligibility set is empty. -/
theorem create_vote_empty_eligibility_counterexample :
    VoteManager.empty.get_all_pending_votes = [] ∧
    ((VoteManager.empty.create_vote "shutdown" "i" "j" ∅ 1 300 "" 0).2.map
      (fun v => v.eligible_voters.card)) = some 0 := by
  decide

/-- C4 amended: `create_vote` returns `none` exactly when a pending vote
of the same kind is stored; it performs no eligibility check, handing
the passed-in set — empty or not — to the created vote unchanged. -/
theorem create_vote_none_iff_pending_same_kind (m : VoteManager)
    (vote_type initiator initiator_id : String)
    (eligible_voters : Finset String) (required_percentage rtimeout : ℚ)
    (description : String) (now : ℚ) :
    ((m.create_vote vote_type initiator initiator_id eligible_voters
        required_percentage rtimeout description now).2 = none ↔
      ∃ p ∈ m.active_votes,
        p.2.vote_type = vote_type ∧ p.2.status = VoteStatus.pending) ∧
    (∀ v, (m.create_vote vote_type initiator initiator_id eligible_voters
        required_percentage rtimeout description now).2 = some v →
      v.eligible_voters = eligible_voters) := by
  constructor
  · unfold VoteManager.create_vote
    split
    · rename_i hcond
      have hex : ∃ p ∈ m.active_votes,
          p.2.vote_type = vote_type ∧ p.2.status = VoteStatus.pending := by
        simpa using List.any_eq_true.mp hcond
      simpa using hex
    · rename_i hcond
      constructor
      · intro habs
        exact absurd habs (by simp)
      · intro hex
        exact absurd (List.any_eq_true.mpr (by simpa using hex)) hcond
  · unfold VoteManager.create_vote
    split
    · intro v hv
      exact absurd hv (by simp)
    · intro v hv
      simp only [Option.some.injEq] at hv
      rw [← hv]
      rfl

/-- C4 amended witness: creating a `shutdown` vote with an empty
eligible set in an empty manager yields a vote whose eligibility set is
the empty set that was passed in. -/
theorem create_vote_none_iff_pending_same_kind_witness :
    (Vote.create "shutdown_1_0" "shutdown" "i" "j" ∅ 1 300 "" 1
        0).eligible_voters = (∅ : Finset String) :=
  (create_vote_none_iff_pending_same_kind VoteManager.empty "shutdown" "i" "j"
      ∅ 1 300 "" 0).2
    (Vote.create "shutdown_1_0" "shutdown" "i" "j" ∅ 1 300 "" 1 0) (by decide)

end VoteEngine
